import Mathlib

set_option synthInstance.maxSize 8192
set_option synthInstance.maxHeartbeats 2000000
set_option maxHeartbeats 4000000
set_option maxRecDepth 8192

/-!
Shallow embedding of the AutoRota constraint-model builders.

The repository contains four script variants; the two files under
src/Refactor hold three distinct model builders:

* `gen1…` — the functions of `Rota Generator.py` used by its `main()`
  (lines 147-495): shift domain 0..4 with 0 = Early, 1 = Middle,
  2 = Late, 3 = Day Off, 4 = Holiday.
* `gen2…` — the module-level variant appended at the end of
  `Rota Generator.py` (lines 841-1146), same shift domain.
* `refac…` — `Rota Creation Script Refactor.py`, shift domain 0..3
  (no Holiday shift).

A schedule is the projection of a CP-SAT assignment to the categorical
variables `x[w, d, e]`; every auxiliary Boolean the source creates is
reified in both directions (`OnlyEnforceIf(b)` / `OnlyEnforceIf(b.Not())`),
hence functionally determined by `x`, so a constraint family is modelled
as the predicate it imposes on the categorical assignment alone.
Calendar dates are modelled as day numbers (dates compare and add
exactly like the `datetime.date` values in the source).
-/

/-- A schedule assignment: week index, day index, employee index ↦ shift code. -/
def Sched : Type := Nat → Nat → Nat → Nat

/-- Slack assignment for the weekly-quota constraints of the `main()` variant:
employee index, week index ↦ slack value (`slack_{emp}_{w}` in the source). -/
def SlackAssign : Type := Nat → Nat → Nat

/-- Lookup in an association list, mirroring a Python dict access that
returns a value for a present key (`d[k]` / `d.get(k)`). -/
def lookupStr {α : Type} : List (String × α) → String → Option α
  | [], _ => none
  | (k, v) :: rest, x => if k = x then some v else lookupStr rest x

/-- `employees.index(emp)` in Python: the first index holding `emp`,
`none` standing for the ValueError raised when `emp` is absent. -/
def empIndex : List String → String → Option Nat
  | [], _ => none
  | e :: rest, x => if e = x then some 0 else (empIndex rest x).map (· + 1)

/-- The source's `day_name_to_index` dict; `none` stands for the KeyError
raised on an unknown day name. -/
def dayNameToIndex (d : String) : Option Nat :=
  if d = "Sunday" then some 0
  else if d = "Monday" then some 1
  else if d = "Tuesday" then some 2
  else if d = "Wednesday" then some 3
  else if d = "Thursday" then some 4
  else if d = "Friday" then some 5
  else if d = "Saturday" then some 6
  else none

/-- The `required` rule keys the builders read (a missing key is the
empty list / empty dict). -/
structure RequiredRules where
  willWorkLate : List String
  willWorkMiddle : List String
  willWorkEarly : List String
  workingDays : List (String × Nat)
  daysWontWork : List (String × String)
  everyOtherWeekendOff : List String

/-- The `preferred` rule keys the objective reads. -/
structure PreferredRules where
  lateShifts : List String
  earlyShifts : List String
  middleShifts : List String

/-- One employee's entry in `Temporary Rules.json` (dates as day numbers;
`holiday = some (s, t)` models an interval with `active` true). -/
structure EmpTemp where
  name : String
  daysOff : List Nat
  earlyOn : Option Nat
  middleOn : Option Nat
  lateOn : Option Nat
  holiday : Option (Nat × Nat)

/-!
* Section: Name-resolution model for `Rota Creation Script Refactor.py` (claim C4)

`add_preferred_constraints_and_objective` ends by building `final_obj`
(lines 269-274) and calling `model.Maximize(final_obj)`. Python resolves
each name in that expression against the local scope, then the module
scope, then builtins. The module-scope list below holds every top-level
name bound before the call at line 277 executes; the locals list holds
the function's parameters and every name its body assigns.
-/

/-- Top-level names of `Rota Creation Script Refactor.py` bound before the
module-level call of `add_preferred_constraints_and_objective` (line 277):
the imports and every top-level def / assignment up to line 224. -/
def refacModuleScope : List String :=
  ["cp_model", "datetime", "csv", "os", "json",
   "load_rules", "script_dir", "json_file", "required_rules", "preferred_rules",
   "day_name_to_index", "initialize_model", "num_weeks", "days_per_week",
   "employees", "shifts", "shift_to_int", "int_to_shift",
   "model", "x", "work", "global_work", "total_days",
   "add_weekend_off_constraints", "add_daily_coverage_constraints",
   "add_weekly_work_constraints", "day_index",
   "add_consecutive_day_constraints", "six_in_a_row",
   "add_employee_specific_constraints", "add_allowed_shifts",
   "add_week_boundary_constraints", "shift_leaders", "weekend_off_indicators",
   "add_preferred_constraints_and_objective"]

/-- Local scope of `add_preferred_constraints_and_objective`: its ten
parameters and every name its body assigns. -/
def refacObjectiveLocals : List String :=
  ["model", "preferred_rules", "employees", "shift_to_int", "num_weeks",
   "days_per_week", "x", "six_in_a_row", "total_days", "weekend_off_indicators",
   "prefs", "emp", "e", "w", "d", "var_late", "var_early", "var_middle",
   "BIG_PENALTY", "obj_expr", "penalties", "stepup_penalty_factor",
   "stepup_employees", "stepup_penalty", "weekend_bonus", "final_obj"]

/-- Whether a name referenced inside `add_preferred_constraints_and_objective`
resolves (locals, then module scope; none of the names involved is a builtin). -/
def refacResolves (n : String) : Bool :=
  refacObjectiveLocals.contains n || refacModuleScope.contains n

/-- The names the `final_obj` expression (lines 269-274) references. -/
def refacFinalObjNames : List String :=
  ["cp_model", "obj_expr", "penalties", "stepup_penalty_factor",
   "stepup_penalty", "WEEKEND_BONUS", "weekend_bonus"]

/-- Evaluating the `final_obj` assignment: `none` = it evaluates, `some m` =
the name-resolution error raised on the first unresolvable name. -/
def refacFinalObjStep : Option String :=
  (refacFinalObjNames.find? (fun n => !(refacResolves n))).map
    (fun n => "NameError: name " ++ n)

/-- Running `add_preferred_constraints_and_objective` to completion:
`earlier` abstracts the outcome of the statements before the `final_obj`
assignment (they may raise for other reasons); a normal return (`none`)
requires the final step to evaluate. -/
def refacObjectiveRun (earlier : Option String) : Option String :=
  match earlier with
  | some m => some m
  | none => refacFinalObjStep

/-- The module-level call at line 277 precedes `solver.Solve(model)` at
line 283; the script reaches its solve step only if that call returns. -/
def refacReachesSolve (earlier : Option String) : Bool :=
  (refacObjectiveRun earlier).isNone

/-- Parameter count of `add_preferred_constraints_and_objective` (line 224). -/
def refacObjectiveParamCount : Nat := 10

/-- Argument count of the call in the `__main__` block (line 337), which
omits `weekend_off_indicators`. -/
def refacMainCallArgCount : Nat := 9

/-!
* Section: "Days won't work" installers with their error behaviour (claim C10)

Both `Rota Generator.py` variants guard each entry with
`if emp in employees:` and silently skip a non-member; the Refactor script
calls `employees.index(emp)` directly, which raises ValueError. In every
variant `day_name_to_index[day]` raises KeyError on an unknown day name.
The installers below return the list of `(day index, employee index)`
cells pinned to Day Off, or the first error raised.
-/

/-- The `Rota Generator.py` "Days won't work" installer (both variants,
lines 248-254 and 961-967): entries whose employee is not in the roster
are skipped without error. -/
def genDaysWontWorkInstall (employees : List String) :
    List (String × String) → Except String (List (Nat × Nat))
  | [] => Except.ok []
  | (emp, day) :: rest =>
    if emp ∈ employees then
      match empIndex employees emp, dayNameToIndex day with
      | some e, some di =>
        (genDaysWontWorkInstall employees rest).map (fun l => (di, e) :: l)
      | some _, none => Except.error ("KeyError: " ++ day)
      | none, _ => Except.error ("ValueError: " ++ emp)
    else genDaysWontWorkInstall employees rest

/-- The Refactor script's "Days won't work" installer (lines 170-175):
`employees.index(emp)` raises on an unknown employee. -/
def refacDaysWontWorkInstall (employees : List String) :
    List (String × String) → Except String (List (Nat × Nat))
  | [] => Except.ok []
  | (emp, day) :: rest =>
    match empIndex employees emp with
    | none => Except.error ("ValueError: " ++ emp)
    | some e =>
      match dayNameToIndex day with
      | none => Except.error ("KeyError: " ++ day)
      | some di =>
        (refacDaysWontWorkInstall employees rest).map (fun l => (di, e) :: l)

/-!
* Section: Constraint families of `Rota Generator.py`, `main()` variant (gen1)

Shift codes: 0 = Early ("E"), 1 = Middle ("M"), 2 = Late ("L"),
3 = Day Off ("D/O"), 4 = Holiday ("H"); "working" means shift ≤ 2
(`x[w,d,e] <= shift_to_int["L"]`). The horizon is `num_weeks = 4` weeks of
`days_per_week = 7` days; day 0 is Sunday and day 6 is Saturday.
-/

/-- Number of working employees in a slot: the sum of the reified
`working_{w}_{d}_{e}` Booleans. -/
def workCount (σ : Sched) (w d n : Nat) : Nat :=
  (List.range n).countP (fun e => decide (σ w d e ≤ 2))

/-- Number of working days of employee `e` in week `w`: the sum of the
reified per-employee working Booleans of that week. -/
def weekWorkCount (σ : Sched) (w e : Nat) : Nat :=
  (List.range 7).countP (fun d => decide (σ w d e ≤ 2))

/-- Variable domains of `initialize_model`: every `x[w,d,e]` is an IntVar
over 0..4. -/
abbrev gen1Domain (n : Nat) (σ : Sched) : Prop :=
  ∀ w < 4, ∀ d < 7, ∀ e < n, σ w d e ≤ 4

/-- Whether `add_allowed_shifts` leaves working shift `s` allowed for
`emp`: membership in the matching eligibility list. -/
abbrev allowedShift (rules : RequiredRules) (emp : String) (s : Nat) : Prop :=
  (s = 2 ∧ emp ∈ rules.willWorkLate)
  ∨ (s = 1 ∧ emp ∈ rules.willWorkMiddle)
  ∨ (s = 0 ∧ emp ∈ rules.willWorkEarly)

/-- `add_allowed_shifts` of `Rota Generator.py` (both variants, lines
217-230 and 851-864): every working shift not in the employee's allowed
set is excluded outright (no guard on the allowed set being empty, no
conditioning on the working indicator). -/
abbrev gen1AllowedShifts (rules : RequiredRules) (employees : List String)
    (σ : Sched) : Prop :=
  ∀ w < 4, ∀ d < 7, ∀ e < employees.length, ∀ s < 3,
    ¬ allowedShift rules (employees.getD e "") s → σ w d e ≠ s

/-- `add_daily_coverage_constraints` (lines 156-179): at least one Early
and one Late per slot, at most 4 working, and no Middle on day 0 or day 6. -/
abbrev gen1DailyCoverage (n : Nat) (σ : Sched) : Prop :=
  ∀ w < 4, ∀ d < 7,
    (∃ e < n, σ w d e = 0) ∧ (∃ e < n, σ w d e = 2)
    ∧ workCount σ w d n ≤ 4
    ∧ ((d = 0 ∨ d = 6) → ∀ e < n, σ w d e ≠ 1)

/-- How many employees of the given kind (`isStep` selects the step-up
side) hold shift `s` in a slot. -/
def stepKindCount (employees stepups : List String) (isStep : Bool)
    (σ : Sched) (w d s : Nat) : Nat :=
  (List.range employees.length).countP
    (fun e => (σ w d e == s) && (decide (employees.getD e "" ∈ stepups) == isStep))

/-- `add_stepup_priority` (lines 196-215): per slot and working shift,
the non-step-up sum and step-up sum are each held in an IntVar with
domain 0..1 (so each is at most 1), and `sum_step <= 1 - sum_nonstep`. -/
abbrev gen1StepupPriority (employees stepups : List String) (σ : Sched) : Prop :=
  ∀ w < 4, ∀ d < 7, ∀ s < 3,
    stepKindCount employees stepups false σ w d s ≤ 1
    ∧ stepKindCount employees stepups true σ w d s ≤ 1
    ∧ stepKindCount employees stepups true σ w d s
        + stepKindCount employees stepups false σ w d s ≤ 1

/-- The weekly-quota half of `add_employee_specific_constraints`
(lines 232-247): for each employee with a "Working Days" entry and each
week, a slack IntVar over 0..7 with `sum(w_bools) + slack == required_days`. -/
abbrev gen1EmployeeQuotas (rules : RequiredRules) (employees : List String)
    (σ : Sched) (sl : SlackAssign) : Prop :=
  ∀ e < employees.length,
    ∀ q ∈ (lookupStr rules.workingDays (employees.getD e "")).toList,
      ∀ w < 4, sl e w ≤ 7 ∧ weekWorkCount σ w e + sl e w = q

/-- The "Days won't work" half of `add_employee_specific_constraints`
(lines 248-254): entries whose employee is in the roster pin that weekday
to Day Off in every week (see `genDaysWontWorkInstall` for the error
behaviour on unknown names). -/
abbrev gen1DaysWontWork (rules : RequiredRules) (employees : List String)
    (σ : Sched) : Prop :=
  ∀ p ∈ rules.daysWontWork,
    ∀ e ∈ (empIndex employees p.1).toList,
      ∀ di ∈ (dayNameToIndex p.2).toList,
        ∀ w < 4, σ w di e = 3

/-- `add_temporary_constraints` (lines 257-302): per-date pins for the
employees named in the temporary rules; `current_date = rota_start +
7*w + d` as a day number. -/
abbrev gen1Temporary (employees : List String) (temps : List EmpTemp)
    (rotaStart : Nat) (σ : Sched) : Prop :=
  ∀ e < employees.length,
    ∀ t ∈ temps, t.name = employees.getD e "" →
      (∀ off ∈ t.daysOff, ∀ w < 4, ∀ d < 7,
        rotaStart + (7 * w + d) = off → σ w d e = 3)
      ∧ (∀ dt ∈ t.earlyOn.toList, ∀ w < 4, ∀ d < 7,
        rotaStart + (7 * w + d) = dt → σ w d e = 0)
      ∧ (∀ dt ∈ t.middleOn.toList, ∀ w < 4, ∀ d < 7,
        rotaStart + (7 * w + d) = dt → σ w d e = 1)
      ∧ (∀ dt ∈ t.lateOn.toList, ∀ w < 4, ∀ d < 7,
        rotaStart + (7 * w + d) = dt → σ w d e = 2)
      ∧ (∀ p ∈ t.holiday.toList, ∀ w < 4, ∀ d < 7,
        p.1 ≤ rotaStart + (7 * w + d) → rotaStart + (7 * w + d) ≤ p.2 →
          σ w d e = 4)

/-- `enforce_strict_alternating_weekends` of the `main()` variant
(lines 304-313): the phase is hard-coded — even week pairs are off
(Saturday of week `w` and Sunday of week `w+1` both Day Off), odd week
pairs are working, with no carry-over offset. -/
abbrev gen1StrictAlternating (employees altEmps : List String) (σ : Sched) : Prop :=
  ∀ emp ∈ altEmps,
    ∀ e ∈ (empIndex employees emp).toList,
      ∀ w < 3,
        (w % 2 = 0 → σ w 6 e = 3 ∧ σ (w + 1) 0 e = 3)
        ∧ (w % 2 ≠ 0 → σ w 6 e ≠ 3 ∧ σ (w + 1) 0 e ≠ 3)

/-- `apply_alternating_offset` (lines 338-349): a carry-over state of
"off" forces the first weekend pair to be working, "on" forces it off
(`num_weeks = 4 > 1`, so both cells are constrained). -/
abbrev gen1AlternatingOffset (employees altEmps : List String)
    (altLast : List (String × String)) (σ : Sched) : Prop :=
  ∀ emp ∈ altEmps,
    ∀ e ∈ (empIndex employees emp).toList,
      (lookupStr altLast emp = some "off" → σ 0 6 e ≠ 3 ∧ σ 1 0 e ≠ 3)
      ∧ (lookupStr altLast emp = some "on" → σ 0 6 e = 3 ∧ σ 1 0 e = 3)

/-- `add_no_late_to_early_constraint` (lines 181-194 of the `main()`
variant; the module-level variant at lines 1016-1030 installs the same
constraints): Late on day `d` forbids Early on day `d+1` within a week,
and Late on day 6 forbids Early on day 0 of the next week. -/
abbrev gen1NoLateToEarly (n : Nat) (σ : Sched) : Prop :=
  (∀ w < 4, ∀ d < 6, ∀ e < n, σ w d e = 2 → σ w (d + 1) e ≠ 0)
  ∧ (∀ w < 3, ∀ e < n, σ w 6 e = 2 → σ (w + 1) 0 e ≠ 0)

/-- The working indicator on a global day index
(`w_ind = d_ind // 7`, `dd = d_ind % 7`). -/
def globalWorkBit (σ : Sched) (t e : Nat) : Nat :=
  if σ (t / 7) (t % 7) e ≤ 2 then 1 else 0

/-- Sum of working indicators over `len` consecutive global days
starting at `start`. -/
def winSum (σ : Sched) (e start len : Nat) : Nat :=
  ((List.range len).map (fun j => globalWorkBit σ (start + j) e)).sum

/-- `add_consecutive_day_limit_with_offset` (lines 315-336), with
`max_consecutive = 6`: for every window of 6 consecutive days (start in
`range(28 - 5)`), the sum of working indicators plus the employee's
carried-over trailing count (`prev_consecutive.get(emp, 0)`, added to
every window) is at most 6. -/
abbrev gen1Consecutive (employees : List String)
    (prevConsec : List (String × Nat)) (σ : Sched) : Prop :=
  ∀ e < employees.length, ∀ s < 23,
    winSum σ e s 6 + (lookupStr prevConsec (employees.getD e "")).getD 0 ≤ 6

/-- The model `main()` builds (lines 453-470): the conjunction of every
installed constraint family, with the two alternation installers guarded
by `if alt_employees:` exactly as in the source. The objective
(`add_objective`) only adds reified indicators, which are functionally
determined by `x`, so it does not constrain the assignment. -/
abbrev gen1BuiltModel (employees stepups : List String) (rules : RequiredRules)
    (temps : List EmpTemp) (rotaStart : Nat)
    (prevConsec : List (String × Nat)) (altLast : List (String × String))
    (σ : Sched) (sl : SlackAssign) : Prop :=
  gen1Domain employees.length σ
  ∧ gen1AllowedShifts rules employees σ
  ∧ gen1DailyCoverage employees.length σ
  ∧ gen1StepupPriority employees stepups σ
  ∧ gen1EmployeeQuotas rules employees σ sl
  ∧ gen1DaysWontWork rules employees σ
  ∧ gen1Temporary employees temps rotaStart σ
  ∧ (rules.everyOtherWeekendOff ≠ [] →
      gen1AlternatingOffset employees rules.everyOtherWeekendOff altLast σ
      ∧ gen1StrictAlternating employees rules.everyOtherWeekendOff σ)
  ∧ gen1NoLateToEarly employees.length σ
  ∧ gen1Consecutive employees prevConsec σ

/-!
* Section: Objective of `Rota Generator.py`, `main()` variant (`add_objective`,
lines 351-395)

Weights as in the source: `weekend_bonus_full = 5000`,
`weekend_bonus_partial = 2500`, `pref_weight = 2000`,
`SLACK_WEIGHT = 10000`. Each bonus indicator is reified in both
directions, hence a function of the assignment.
-/

/-- The full-weekend bonus weight (source name `weekend_bonus_full`). -/
def weekendBonusFull : Int := 5000

/-- The single-day weekend bonus weight (source name
`weekend_bonus_partial`). -/
def weekendBonusHalf : Int := 2500

/-- The per-day shift-preference weight (source name `pref_weight`). -/
def prefWeight : Int := 2000

/-- The slack penalty weight (source name `SLACK_WEIGHT`). -/
def slackWeight : Int := 10000

/-- One employee-week weekend term: 0 for alternating employees
(`continue` in the source); otherwise `full_weekend * 5000 +
partial_weekend * 2500` where `full_weekend` is both weekend days off and
`partial_weekend` is exactly one of them off (`sat` is the Saturday
shift `x[w, 6, e]`, `sun` the Sunday shift `x[w, 0, e]`). -/
def gen1WeekendCell (altEmps : List String) (emp : String)
    (sat sun : Nat) : Int :=
  if emp ∈ altEmps then 0
  else
    weekendBonusFull * (if sat = 3 ∧ sun = 3 then 1 else 0)
    + weekendBonusHalf
      * (if (if sat = 3 then (1 : Nat) else 0)
            + (if sun = 3 then (1 : Nat) else 0) = 1 then 1 else 0)

/-- Sum of the weekend bonus terms of `add_objective`. -/
def gen1WeekendTerms (altEmps employees : List String) (σ : Sched) : Int :=
  ((List.range 4).map (fun w =>
    ((List.range employees.length).map (fun e =>
      gen1WeekendCell altEmps (employees.getD e "") (σ w 6 e) (σ w 0 e))).sum)).sum

/-- One cell's shift-preference contribution: 2000 per preferred-list
membership whose shift is assigned (the three reified indicators of the
source; at most one can fire since the shift values differ). -/
def gen1PrefCell (preferred : PreferredRules) (emp : String) (s : Nat) : Int :=
  (if emp ∈ preferred.lateShifts ∧ s = 2 then prefWeight else 0)
  + (if emp ∈ preferred.earlyShifts ∧ s = 0 then prefWeight else 0)
  + (if emp ∈ preferred.middleShifts ∧ s = 1 then prefWeight else 0)

/-- Sum of the shift-preference terms of `add_objective`. -/
def gen1PrefTerms (preferred : PreferredRules) (employees : List String)
    (σ : Sched) : Int :=
  ((List.range 4).map (fun w =>
    ((List.range 7).map (fun d =>
      ((List.range employees.length).map (fun e =>
        gen1PrefCell preferred (employees.getD e "") (σ w d e))).sum)).sum)).sum

/-- The `(employee index, week)` pairs for which
`add_employee_specific_constraints` appends a slack variable to
`working_slacks`, in source order. -/
def gen1SlackIdx (rules : RequiredRules) (employees : List String) :
    List (Nat × Nat) :=
  (List.range employees.length).flatMap (fun e =>
    if (lookupStr rules.workingDays (employees.getD e "")).isSome then
      (List.range 4).map (fun w => (e, w))
    else [])

/-- `sum(working_slacks)` under a slack assignment. -/
def gen1TotalSlack (rules : RequiredRules) (employees : List String)
    (sl : SlackAssign) : Int :=
  (((gen1SlackIdx rules employees).map (fun p => sl p.1 p.2)).sum : Nat)

/-- The maximized expression of `add_objective`: weekend bonuses plus
preference terms, minus `SLACK_WEIGHT * sum(working_slacks)` when the
slack list is nonempty (`if working_slacks:` in the source). -/
def gen1Objective (rules : RequiredRules) (preferred : PreferredRules)
    (employees : List String) (σ : Sched) (sl : SlackAssign) : Int :=
  gen1WeekendTerms rules.everyOtherWeekendOff employees σ
  + gen1PrefTerms preferred employees σ
  + (if gen1SlackIdx rules employees = [] then 0
     else -(slackWeight * gen1TotalSlack rules employees sl))

/-!
* Section: Constraint families of the module-level variant of `Rota Generator.py`
(gen2, lines 841-1146)
-/

/-- `enforce_strict_alternating_weekends` of the module-level variant
(lines 866-877): the pair phase is shifted by the employee's
`weekend_offsets` entry (`weekend_offsets.get(emp, 0)`). -/
abbrev gen2StrictAlternating (employees altEmps : List String)
    (offsets : List (String × Nat)) (σ : Sched) : Prop :=
  ∀ emp ∈ altEmps,
    ∀ e ∈ (empIndex employees emp).toList,
      ∀ w < 3,
        ((w + (lookupStr offsets emp).getD 0) % 2 = 0 →
          σ w 6 e = 3 ∧ σ (w + 1) 0 e = 3)
        ∧ ((w + (lookupStr offsets emp).getD 0) % 2 ≠ 0 →
          σ w 6 e ≠ 3 ∧ σ (w + 1) 0 e ≠ 3)

/-- The `weekend_offsets` computation at lines 1139-1141: offset 1 when
the previous rota ended with a full weekend off, 0 otherwise. -/
def gen2WeekendOffsets (altEmps : List String)
    (prevWeekendOff : List (String × Bool)) : List (String × Nat) :=
  altEmps.map (fun emp =>
    (emp, if (lookupStr prevWeekendOff emp).getD false then 1 else 0))

/-- `add_employee_specific_constraints` of the module-level variant
(lines 942-960): the week count is exactly the quota for duty managers,
at most the quota for reserves, exactly the quota otherwise — with no
slack variable anywhere. -/
abbrev gen2EmployeeQuotas (rules : RequiredRules)
    (employees dutyManagers reserves : List String) (σ : Sched) : Prop :=
  ∀ e < employees.length,
    ∀ q ∈ (lookupStr rules.workingDays (employees.getD e "")).toList,
      ∀ w < 4,
        (employees.getD e "" ∈ dutyManagers → weekWorkCount σ w e = q)
        ∧ (employees.getD e "" ∉ dutyManagers →
            employees.getD e "" ∈ reserves → weekWorkCount σ w e ≤ q)
        ∧ (employees.getD e "" ∉ dutyManagers →
            employees.getD e "" ∉ reserves → weekWorkCount σ w e = q)

/-!
* Section: Constraint families of `Rota Creation Script Refactor.py` (refac)

Shift domain 0..3 (0 = Early, 1 = Middle, 2 = Late, 3 = Day Off);
"working" means shift ≠ 3 (`work[w,d,e]`). The module-level code builds
the model from these installers (lines 60-219); `add_weekly_work_constraints`
is defined but called only from the `__main__` block, so it is not part
of the module-level build. The employee roster is hard-coded.
-/

/-- The hard-coded roster of the Refactor script (line 56). -/
def refacEmployees : List String :=
  ["Jennifer", "Luke", "Senaka", "Stacey", "Callum"]

/-- The hard-coded shift leaders of the Refactor script (line 218). -/
def refacLeaders : List String := ["Jennifer", "Luke", "Senaka", "Stacey"]

/-- Variable domains of the Refactor script's `initialize_model`:
IntVars over 0..3. -/
abbrev refacDomain (σ : Sched) : Prop :=
  ∀ w < 4, ∀ d < 7, ∀ e < 5, σ w d e ≤ 3

/-- `add_daily_coverage_constraints` of the Refactor script
(lines 87-102): at least one Early and one Late per slot. -/
abbrev refacCoverage (σ : Sched) : Prop :=
  ∀ w < 4, ∀ d < 7, (∃ e < 5, σ w d e = 0) ∧ (∃ e < 5, σ w d e = 2)

/-- Week count of working days in the Refactor script (work = shift ≠ 3). -/
def refacWeekCount (σ : Sched) (w e : Nat) : Nat :=
  (List.range 7).countP (fun d => !(σ w d e == 3))

/-- Sum of the Refactor script's `global_work` indicators over `len`
consecutive global days from `i`. -/
def refacWinSum (σ : Sched) (e i len : Nat) : Nat :=
  ((List.range len).map (fun j =>
    if σ ((i + j) / 7) ((i + j) % 7) e == 3 then 0 else 1)).sum

/-- The hard half of `add_consecutive_day_constraints` (lines 141-145):
every window of 7 consecutive global days has at most 6 working days
(`for i in range(total_days - 6)`); the six-in-a-row Booleans are soft. -/
abbrev refacConsecutive (σ : Sched) : Prop :=
  ∀ e < 5, ∀ i < 22, refacWinSum σ e i 7 ≤ 6

/-- `add_employee_specific_constraints` of the Refactor script
(lines 160-182): quota exactly (at most for Callum), "Days won't work"
pins, and the hard-coded odd-week alternating pairs. -/
abbrev refacEmployeeSpecific (rules : RequiredRules) (σ : Sched) : Prop :=
  (∀ e < refacEmployees.length,
    ∀ q ∈ (lookupStr rules.workingDays (refacEmployees.getD e "")).toList,
      ∀ w < 4,
        (refacEmployees.getD e "" = "Callum" → refacWeekCount σ w e ≤ q)
        ∧ (refacEmployees.getD e "" ≠ "Callum" → refacWeekCount σ w e = q))
  ∧ (∀ p ∈ rules.daysWontWork,
      ∀ e ∈ (empIndex refacEmployees p.1).toList,
        ∀ di ∈ (dayNameToIndex p.2).toList,
          ∀ w < 4, σ w di e = 3)
  ∧ (∀ emp ∈ rules.everyOtherWeekendOff,
      ∀ e ∈ (empIndex refacEmployees emp).toList,
        ∀ w < 3, w % 2 = 1 → σ w 6 e = 3 ∧ σ (w + 1) 0 e = 3)

/-- `add_allowed_shifts` of the Refactor script (lines 184-198): unlike
the Generator variants, the exclusions are installed only when the
employee's allowed set is nonempty (`if allowed_set:`), and each
exclusion is conditioned on the working indicator
(`.OnlyEnforceIf(work[w, d, e])`). -/
abbrev refacAllowedShifts (rules : RequiredRules) (σ : Sched) : Prop :=
  ∀ w < 4, ∀ d < 7, ∀ e < refacEmployees.length,
    (∃ s < 3, allowedShift rules (refacEmployees.getD e "") s) →
      ∀ s < 3, ¬ allowedShift rules (refacEmployees.getD e "") s →
        σ w d e ≠ 3 → σ w d e ≠ s

/-- `add_week_boundary_constraints` (lines 206-213): Late on Saturday of
week `w` forbids Early on Sunday of week `w+1`. This is the only
Late-to-Early constraint the Refactor script installs — there is no
within-week counterpart. -/
abbrev refacWeekBoundary (σ : Sched) : Prop :=
  ∀ e < 5, ∀ w < 3, σ w 6 e = 2 → σ (w + 1) 0 e ≠ 0

/-- `add_weekend_off_constraints` (lines 65-84): each weekend-off Boolean
is equivalent to both Sunday and Saturday of that week being off, and
each shift leader needs at least one such weekend. -/
abbrev refacWeekendOff (σ : Sched) : Prop :=
  ∀ emp ∈ refacLeaders,
    ∀ e ∈ (empIndex refacEmployees emp).toList,
      ∃ w < 4, σ w 0 e = 3 ∧ σ w 6 e = 3

/-- The model the Refactor script's module-level code has built by
line 219 (its objective call then raises, see `refacObjectiveRun`, but the
constraints are already installed; the preference indicators added before
the failing expression are reified both ways, hence unconstraining). -/
abbrev refacBuiltModel (rules : RequiredRules) (σ : Sched) : Prop :=
  refacDomain σ
  ∧ refacCoverage σ
  ∧ refacConsecutive σ
  ∧ refacEmployeeSpecific rules σ
  ∧ refacAllowedShifts rules σ
  ∧ refacWeekBoundary σ
  ∧ refacWeekendOff σ

/-- `add_weekly_work_constraints` (lines 111-120, `__main__` path only):
everyone except Callum (index 4) works exactly 5 days a week, Callum at
most 2 a week and at least 1 overall. -/
abbrev refacWeeklyWork (σ : Sched) : Prop :=
  (∀ w < 4, ∀ e < 5,
    (e = 4 → refacWeekCount σ w e ≤ 2)
    ∧ (e ≠ 4 → refacWeekCount σ w e = 5))
  ∧ 1 ≤ ((List.range 4).map (fun w => refacWeekCount σ w 4)).sum

/-!
* Section: Concrete scenarios

Rule sets are inputs read from JSON files outside the repository, so each
claim is settled on explicit small configurations; schedules are given as
concrete assignments.
-/

/-- The empty rule set (every key absent). -/
def emptyRules : RequiredRules :=
  { willWorkLate := [], willWorkMiddle := [], willWorkEarly := [],
    workingDays := [], daysWontWork := [], everyOtherWeekendOff := [] }

/-- The all-zero slack assignment. -/
def zeroSlack : SlackAssign := fun _ _ => 0

/-- C1 scenario: one alternating-weekend employee whose previous rota
ended with a full weekend off. -/
def c1Employees : List String := ["Eve"]

/-- C1 rule set: Eve is on "Every other weekend off". -/
def c1Rules : RequiredRules :=
  { willWorkLate := ["Eve"], willWorkMiddle := [], willWorkEarly := ["Eve"],
    workingDays := [], daysWontWork := [], everyOtherWeekendOff := ["Eve"] }

/-- C1 carry-over: the last rota block shows Eve with Saturday and Sunday
both off (`parse_last_week_alternating` yields "off"). -/
def c1AltLast : List (String × String) := [("Eve", "off")]

/-- A schedule continuing Eve's alternation under offset 1: weekend pairs
0 and 2 working, pair 1 off. -/
def c1AltSched : Sched := fun w d _ =>
  if (d = 6 ∧ (w = 1 ∨ w = 3)) ∨ (d = 0 ∧ w = 2) then 3 else 0

/-- C2 scenario: two employees, one eligible Early, one eligible Late,
no quotas, overrides or carry-over. -/
def c2Employees : List String := ["Ada", "Bob"]

/-- C2 rule set. -/
def c2Rules : RequiredRules :=
  { willWorkLate := ["Bob"], willWorkMiddle := [], willWorkEarly := ["Ada"],
    workingDays := [], daysWontWork := [], everyOtherWeekendOff := [] }

/-- C2 schedule: Ada works Early and Bob works Late on all 28 days. -/
def c2Sched : Sched := fun _ _ e => if e = 0 then 0 else 2

/-- C3/C8 schedule for the Refactor script (employees in roster order
Jennifer, Luke, Senaka, Stacey, Callum): every leader gets a full weekend
off, coverage holds daily, no 7-day run — and Jennifer works Late on
week 0 day 1 then Early on week 0 day 2. -/
def c3Sched : Sched := fun w d e =>
  if e = 0 then
    if w ≤ 2 then
      if d = 0 ∨ d = 6 then 3 else if w = 0 ∧ d = 1 then 2 else 0
    else if d = 2 ∨ d = 3 then 3 else 0
  else if e = 1 then
    if w ≤ 2 then (if d = 2 ∨ d = 3 then 3 else 0)
    else if d = 0 ∨ d = 6 then 3 else 0
  else if e = 2 then
    if w ≤ 2 then (if d = 4 ∨ d = 5 then 3 else 2)
    else if d = 0 ∨ d = 6 then 3 else 2
  else if e = 3 then
    if w ≤ 2 then (if d = 1 ∨ d = 2 then 3 else 2)
    else if d = 0 ∨ d = 6 then 3 else 2
  else
    if w = 3 ∧ (d = 0 ∨ d = 6) then 2 else 3

/-- C5 conflict scenario: Ann must not work Sundays, yet a temporary rule
forces her Early on the rota start date, a Sunday (day number 0 with
`rota_start = 0`). -/
def c5Employees : List String := ["Ann"]

/-- C5 conflict rule set. -/
def c5Rules : RequiredRules :=
  { willWorkLate := [], willWorkMiddle := [], willWorkEarly := ["Ann"],
    workingDays := [], daysWontWork := [("Ann", "Sunday")],
    everyOtherWeekendOff := [] }

/-- C5 conflict temporary entry: Early forced on day 0. -/
def c5TempAnn : EmpTemp :=
  { name := "Ann", daysOff := [], earlyOn := some 0, middleOn := none,
    lateOn := none, holiday := none }

/-- C5 conflict temporary rules. -/
def c5Temps : List EmpTemp := [c5TempAnn]

/-- C5 compatible scenario: the forced Early falls on a Monday instead. -/
def c5okEmployees : List String := ["Ann", "Rex", "Sue"]

/-- C5 compatible rule set. -/
def c5okRules : RequiredRules :=
  { willWorkLate := ["Rex"], willWorkMiddle := [],
    willWorkEarly := ["Ann", "Sue"], workingDays := [],
    daysWontWork := [("Ann", "Sunday")], everyOtherWeekendOff := [] }

/-- C5 compatible temporary entry: Early forced on day 1 (Monday of
week 0). -/
def c5okTempAnn : EmpTemp :=
  { name := "Ann", daysOff := [], earlyOn := some 1, middleOn := none,
    lateOn := none, holiday := none }

/-- C5 compatible temporary rules. -/
def c5okTemps : List EmpTemp := [c5okTempAnn]

/-- C5 compatible schedule: Ann Early on weekdays, Rex Late every day,
Sue Early on weekends. -/
def c5okSched : Sched := fun _ d e =>
  if e = 0 then (if d = 0 ∨ d = 6 then 3 else 0)
  else if e = 1 then 2
  else if d = 0 ∨ d = 6 then 0 else 3

/-- C6 scenario: four employees with weekly quota 5 each; Amy has an
active holiday spanning day numbers 14..20, i.e. all of week 2. -/
def c6Employees : List String := ["Amy", "Ben", "Cal", "Dan"]

/-- C6 rule set. -/
def c6Rules : RequiredRules :=
  { willWorkLate := ["Cal", "Dan"], willWorkMiddle := [],
    willWorkEarly := ["Ben", "Dan"],
    workingDays := [("Amy", 5), ("Ben", 5), ("Cal", 5), ("Dan", 5)],
    daysWontWork := [], everyOtherWeekendOff := [] }

/-- C6 holiday entry for Amy. -/
def c6TempAmy : EmpTemp :=
  { name := "Amy", daysOff := [], earlyOn := none, middleOn := none,
    lateOn := none, holiday := some (14, 20) }

/-- C6 temporary rules. -/
def c6Temps : List EmpTemp := [c6TempAmy]

/-- C6 preferred rules (none). -/
def c6Pref : PreferredRules :=
  { lateShifts := [], earlyShifts := [], middleShifts := [] }

/-- C6 schedule: Amy on holiday all of week 2 and off otherwise; Ben
Early on days 0-4; Cal Late on days 2-6; Dan Late on days 0-1 and Early
on days 5-6. -/
def c6Sched : Sched := fun w d e =>
  if e = 0 then (if w = 2 then 4 else 3)
  else if e = 1 then (if d ≤ 4 then 0 else 3)
  else if e = 2 then (if 2 ≤ d then 2 else 3)
  else if d ≤ 1 then 2 else if 5 ≤ d then 0 else 3

/-- C6 slack assignment: Amy has slack 5 every week (she never works),
Dan slack 1 (he works 4 of his 5), Ben and Cal slack 0. -/
def c6Slack : SlackAssign := fun e _ =>
  if e = 0 then 5 else if e = 3 then 1 else 0

/-- C7 scenario: Dia is a duty manager with quota 5, Rob a reserve with
cap 3. -/
def c7Employees : List String := ["Dia", "Rob"]

/-- C7 duty managers. -/
def c7Duty : List String := ["Dia"]

/-- C7 reserves. -/
def c7Reserves : List String := ["Rob"]

/-- C7 rule set. -/
def c7Rules : RequiredRules :=
  { willWorkLate := ["Rob"], willWorkMiddle := [], willWorkEarly := ["Dia"],
    workingDays := [("Dia", 5), ("Rob", 3)], daysWontWork := [],
    everyOtherWeekendOff := [] }

/-- C7 schedule: Dia works 5 days a week, Rob 2 (strictly under his cap). -/
def c7Sched : Sched := fun _ d e =>
  if e = 0 then (if d ≤ 4 then 0 else 3)
  else if d ≤ 1 then 2 else 3

/-- C9 preferred rules: Pat prefers Late shifts. -/
def c9Pref : PreferredRules :=
  { lateShifts := ["Pat"], earlyShifts := [], middleShifts := [] }

/-- C9 schedule realizing the preference bound: Late everywhere. -/
def c9AllLate : Sched := fun _ _ _ => 2

/-- C9 schedule realizing the weekend-bonus bound: Day Off everywhere. -/
def c9AllOff : Sched := fun _ _ _ => 3

/-!
* Section: Helper lemmas
-/

/-- A mapped sum over `List.range n` is bounded by `n` times a pointwise
bound. -/
theorem listRangeSumLe (n : Nat) (f : Nat → Int) (c : Int)
    (h : ∀ i, i < n → f i ≤ c) :
    ((List.range n).map f).sum ≤ (n : Int) * c := by
  induction n with
  | zero => simp
  | succ m ih =>
    have h1 := ih (fun i hi => h i (Nat.lt_succ_of_lt hi))
    have h2 := h m (Nat.lt_succ_self m)
    calc ((List.range (m + 1)).map f).sum
        = ((List.range m).map f).sum + f m := by
          rw [List.range_succ]; simp
      _ ≤ (m : Int) * c + c := add_le_add h1 h2
      _ = ((m + 1 : Nat) : Int) * c := by push_cast; ring

/-- A single employee-day preference contribution never exceeds one
preference weight: the three indicator conditions are mutually exclusive
in the shift value. -/
theorem gen1PrefCellLe (p : PreferredRules) (emp : String) (s : Nat) :
    gen1PrefCell p emp s ≤ prefWeight := by
  by_cases hL : emp ∈ p.lateShifts <;>
    by_cases hE : emp ∈ p.earlyShifts <;>
      by_cases hM : emp ∈ p.middleShifts <;>
        rcases s with _ | _ | _ | n <;>
          simp [gen1PrefCell, prefWeight, hL, hE, hM]

/-- A single employee-week weekend contribution never exceeds one full
weekend bonus. -/
theorem gen1WeekendCellLe (altEmps : List String) (emp : String)
    (sat sun : Nat) :
    gen1WeekendCell altEmps emp sat sun ≤ weekendBonusFull := by
  unfold gen1WeekendCell
  by_cases hm : emp ∈ altEmps
  · rw [if_pos hm]; simp [weekendBonusFull]
  · rw [if_neg hm]
    by_cases h6 : sat = 3 <;> by_cases h0 : sun = 3 <;>
      simp [h6, h0, weekendBonusFull, weekendBonusHalf]

/-!
* Section: Claim theorems
-/

/-- Claim C4 (confirmed): `add_preferred_constraints_and_objective` in
the Refactor script never returns normally — the name `WEEKEND_BONUS` it
references in `final_obj` resolves in no scope, so its evaluation always
ends in a name-resolution error whatever the earlier statements did; the
module-level call therefore stops the script before `solver.Solve`, and
the `__main__` call additionally passes one argument fewer than the
function's parameter count. -/
theorem c4_objective_name_error :
    refacResolves "WEEKEND_BONUS" = false
    ∧ refacFinalObjStep = some "NameError: name WEEKEND_BONUS"
    ∧ (∀ earlier, refacObjectiveRun earlier ≠ none)
    ∧ (∀ earlier, refacReachesSolve earlier = false)
    ∧ refacMainCallArgCount < refacObjectiveParamCount := by
  refine ⟨by decide, by decide, ?_, ?_, by decide⟩
  · intro earlier
    cases earlier with
    | some m => simp [refacObjectiveRun]
    | none =>
      show refacFinalObjStep ≠ none
      decide
  · intro earlier
    cases earlier with
    | some m => simp [refacReachesSolve, refacObjectiveRun]
    | none =>
      show (refacObjectiveRun none).isNone = false
      decide

/-- Claim C10, counterexample: a rule set with a "Days won't work" entry
for an employee outside the roster makes the Generator installer return
successfully with the entry silently dropped — no error is raised. -/
theorem c10_silent_skip_cex :
    genDaysWontWorkInstall ["Amy"] [("Ghost", "Sunday")] = Except.ok []
    ∧ "Ghost" ∉ (["Amy"] : List String) := by
  exact ⟨rfl, by decide⟩

/-- Claim C10 (amended): unknown day names fail fast in every variant,
and the Refactor script fails fast on unknown employee names too; but
both `Rota Generator.py` variants guard "Days won't work" entries with
an `if emp in employees:` membership test and silently skip entries
naming an unknown employee while well-formed entries still install. -/
theorem c10_unknown_name_handling :
    genDaysWontWorkInstall ["Amy"] [("Ghost", "Sunday")] = Except.ok []
    ∧ refacDaysWontWorkInstall ["Amy"] [("Ghost", "Sunday")]
        = Except.error "ValueError: Ghost"
    ∧ genDaysWontWorkInstall ["Amy"] [("Amy", "Caturday")]
        = Except.error "KeyError: Caturday"
    ∧ refacDaysWontWorkInstall ["Amy"] [("Amy", "Caturday")]
        = Except.error "KeyError: Caturday"
    ∧ genDaysWontWorkInstall ["Amy"] [("Amy", "Monday")] = Except.ok [(1, 0)] := by
  exact ⟨rfl, rfl, rfl, rfl, rfl⟩

/-- Claim C1: for an alternating employee whose carry-over flag is "off",
the `main()` build of `Rota Generator.py` is infeasible —
`apply_alternating_offset` forces the first weekend pair to be working
while its `enforce_strict_alternating_weekends` hard-codes the same pair
to be off. The module-level variant implements the claimed behaviour: its
`weekend_offsets` map the "weekend off" carry-over to offset 1, under
which every satisfying assignment works the first pair and rests the
second, and such assignments exist. -/
theorem c1_alternating_carryover :
    ((∃ σ : Sched, ∃ sl : SlackAssign,
        gen1BuiltModel c1Employees [] c1Rules [] 0 [] c1AltLast σ sl) ↔ False)
    ∧ gen2WeekendOffsets ["Eve"] [("Eve", true)] = [("Eve", 1)]
    ∧ (∀ σ : Sched,
        gen2StrictAlternating c1Employees ["Eve"] [("Eve", 1)] σ →
          σ 0 6 0 ≠ 3 ∧ σ 1 0 0 ≠ 3 ∧ σ 1 6 0 = 3 ∧ σ 2 0 0 = 3
          ∧ σ 2 6 0 ≠ 3 ∧ σ 3 0 0 ≠ 3)
    ∧ gen2StrictAlternating c1Employees ["Eve"] [("Eve", 1)] c1AltSched := by
  refine ⟨?_, rfl, ?_, by decide⟩
  · constructor
    · rintro ⟨σ, sl, h⟩
      obtain ⟨-, -, -, -, -, -, -, halt, -, -⟩ := h
      obtain ⟨hoff, hstrict⟩ := halt (by decide)
      have h1 := hoff "Eve" (by decide) 0 (by decide)
      have h2 := hstrict "Eve" (by decide) 0 (by decide) 0 (by decide)
      exact absurd (h2.1 (by decide)).1 (h1.1 (by decide)).1
    · exact False.elim
  · intro σ h
    have h0 := h "Eve" (by decide) 0 (by decide) 0 (by decide)
    have h1 := h "Eve" (by decide) 0 (by decide) 1 (by decide)
    have h2 := h "Eve" (by decide) 0 (by decide) 2 (by decide)
    exact ⟨(h0.2 (by decide)).1, (h0.2 (by decide)).2, (h1.1 (by decide)).1,
      (h1.1 (by decide)).2, (h2.2 (by decide)).1, (h2.2 (by decide)).2⟩

/-- Claim C2: the `main()` build of `Rota Generator.py` does not bound
runs of working days by 6 — its windows have length `max_consecutive = 6`
(not 7), so with carry-over 0 the window constraint is vacuous: the
schedule in which Ada works Early and Bob Late on all 28 days satisfies
the entire built model, yet its first 7-day window holds 7 working days. -/
theorem c2_consecutive_window_gap :
    gen1BuiltModel c2Employees [] c2Rules [] 0 [] [] c2Sched zeroSlack
    ∧ winSum c2Sched 0 0 7 = 7
    ∧ ¬ (winSum c2Sched 0 0 7 ≤ 6) := by
  exact ⟨by decide, by decide, by decide⟩

/-- Claim C3, counterexample: the Refactor script's built model admits a
satisfying assignment in which Jennifer works Late on week 0 day 1 and
Early on week 0 day 2 — a within-week Late-to-Early transition (only the
week-boundary instances are constrained there). -/
theorem c3_within_week_cex :
    refacBuiltModel emptyRules c3Sched
    ∧ c3Sched 0 1 0 = 2 ∧ c3Sched 0 2 0 = 0 := by
  exact ⟨by decide, by decide, by decide⟩

/-- Claim C3 (amended): in both `Rota Generator.py` builders the
installed constraints forbid Late-to-Early on every pair of consecutive
days of the 28-day horizon, week boundaries included; the Refactor script
constrains only the week-boundary pairs, and a satisfying assignment of
its model can hold a within-week Late-to-Early transition. -/
theorem c3_late_to_early :
    (∀ n : Nat, ∀ σ : Sched, gen1NoLateToEarly n σ →
      ∀ e < n, ∀ t < 27,
        σ (t / 7) (t % 7) e = 2 → σ ((t + 1) / 7) ((t + 1) % 7) e ≠ 0)
    ∧ (∀ σ : Sched, refacWeekBoundary σ →
        ∀ e < 5, ∀ w < 3, σ w 6 e = 2 → σ (w + 1) 0 e ≠ 0)
    ∧ (∃ σ : Sched, refacBuiltModel emptyRules σ ∧ σ 0 1 0 = 2 ∧ σ 0 2 0 = 0) := by
  refine ⟨?_, ?_, ⟨c3Sched, by decide, by decide, by decide⟩⟩
  · intro n σ h e he t ht hl
    obtain ⟨hin, hb⟩ := h
    by_cases hd : t % 7 = 6
    · have h1 : (t + 1) / 7 = t / 7 + 1 := by omega
      have h2 : (t + 1) % 7 = 0 := by omega
      rw [h1, h2]
      rw [hd] at hl
      exact hb (t / 7) (by omega) e he hl
    · have h1 : (t + 1) / 7 = t / 7 := by omega
      have h2 : (t + 1) % 7 = t % 7 + 1 := by omega
      rw [h1, h2]
      exact hin (t / 7) (by omega) (t % 7) (by omega) e he hl
  · intro σ h e he w hw hl
    exact h e he w hw hl

/-- Claim C5, counterexample: with Ann barred from Sundays by
"Days won't work" and a temporary rule forcing her Early on the start
date (a Sunday), the `main()` build pins `x[0,0,Ann]` to Day Off and to
Early at once — the built model has no satisfying assignment, so the
forced shift does not take precedence over the required rule. -/
theorem c5_forced_shift_conflict_cex :
    (∃ σ : Sched, ∃ sl : SlackAssign,
        gen1BuiltModel c5Employees [] c5Rules c5Temps 0 [] [] σ sl) ↔ False := by
  constructor
  · rintro ⟨σ, sl, h⟩
    obtain ⟨-, -, -, -, -, hdww, htemp, -, -, -⟩ := h
    have h3 : σ 0 0 0 = 3 :=
      hdww ("Ann", "Sunday") (by decide) 0 (by decide) 0 (by decide) 0 (by decide)
    have h0 : σ 0 0 0 = 0 :=
      (htemp 0 (by decide) c5TempAnn (List.mem_cons_self _ _) rfl).2.1
        0 (by decide) 0 (by decide) 0 (by decide) (by decide)
    rw [h3] at h0
    exact absurd h0 (by decide)
  · exact False.elim

/-- Claim C5 (amended): every satisfying assignment of the built model
carries the override pins — the forced shift holds on its date and the
"Days won't work" pin holds too; such models are satisfiable when the
pins do not contradict a hard rule (here the forced Early falls on a
Monday), but the pins are installed alongside the other hard rules, not
in place of them (see the conflict counterexample). -/
theorem c5_override_pins :
    (∀ σ : Sched, ∀ sl : SlackAssign,
        gen1BuiltModel c5okEmployees [] c5okRules c5okTemps 0 [] [] σ sl →
          σ 0 1 0 = 0 ∧ (∀ w < 4, σ w 0 0 = 3))
    ∧ (∃ σ : Sched, ∃ sl : SlackAssign,
        gen1BuiltModel c5okEmployees [] c5okRules c5okTemps 0 [] [] σ sl
        ∧ σ 0 1 0 = 0) := by
  constructor
  · intro σ sl h
    obtain ⟨-, -, -, -, -, hdww, htemp, -, -, -⟩ := h
    constructor
    · exact (htemp 0 (by decide) c5okTempAnn (List.mem_cons_self _ _) rfl).2.1
        1 (by decide) 0 (by decide) 1 (by decide) (by decide)
    · intro w hw
      exact hdww ("Ann", "Sunday") (by decide) 0 (by decide) 0 (by decide) w hw
  · exact ⟨c5okSched, zeroSlack, by decide, by decide⟩

/-- Claim C6: with Amy's holiday spanning all of week 2 (day numbers
14..20), the `main()` build stays satisfiable; in every satisfying
assignment Amy's week 2 cells are exactly Holiday, her week 2 work count
is 0, and the quota equation forces her week 2 slack to the full quota 5;
the slack list is nonempty and the maximized expression is the bonus and
preference terms minus `SLACK_WEIGHT` times the total slack. -/
theorem c6_holiday_slack :
    (∃ σ : Sched, ∃ sl : SlackAssign,
        gen1BuiltModel c6Employees [] c6Rules c6Temps 0 [] [] σ sl)
    ∧ (∀ σ : Sched, ∀ sl : SlackAssign,
        gen1BuiltModel c6Employees [] c6Rules c6Temps 0 [] [] σ sl →
          (∀ d < 7, σ 2 d 0 = 4) ∧ weekWorkCount σ 2 0 = 0
          ∧ weekWorkCount σ 2 0 + sl 0 2 = 5 ∧ sl 0 2 = 5)
    ∧ gen1SlackIdx c6Rules c6Employees ≠ []
    ∧ (∀ σ : Sched, ∀ sl : SlackAssign,
        gen1Objective c6Rules c6Pref c6Employees σ sl
          = gen1WeekendTerms c6Rules.everyOtherWeekendOff c6Employees σ
            + gen1PrefTerms c6Pref c6Employees σ
            - slackWeight * gen1TotalSlack c6Rules c6Employees sl) := by
  refine ⟨⟨c6Sched, c6Slack, by decide⟩, ?_, by decide, ?_⟩
  · intro σ sl h
    obtain ⟨-, -, -, -, hquota, -, htemp, -, -, -⟩ := h
    have hhol := (htemp 0 (by decide) c6TempAmy (List.mem_cons_self _ _) rfl).2.2.2.2
    have hH : ∀ d < 7, σ 2 d 0 = 4 := by
      intro d hd
      exact hhol (14, 20) (by decide) 2 (by decide) d hd
        (by show (14 : Nat) ≤ 0 + (7 * 2 + d); omega)
        (by show 0 + (7 * 2 + d) ≤ 20; omega)
    have hcount : weekWorkCount σ 2 0 = 0 := by
      unfold weekWorkCount
      refine List.countP_eq_zero.mpr ?_
      intro d hd
      rw [hH d (List.mem_range.mp hd)]
      decide
    have hq := hquota 0 (by decide) 5 (by decide) 2 (by decide)
    refine ⟨hH, hcount, hq.2, ?_⟩
    have := hq.2
    rw [hcount] at this
    omega
  · intro σ sl
    unfold gen1Objective
    rw [if_neg (by decide)]
    ring

/-- Claim C7: in the module-level `Rota Generator.py` builder, every
satisfying assignment gives each duty manager with a configured quota
exactly that many working days per week and each reserve at most the
configured cap; the predicate is a plain comparison with no slack term
(no slack variable exists anywhere in this builder), and the Refactor
script's `add_weekly_work_constraints` likewise fixes 5 days exactly for
everyone but Callum, who is capped at 2. A concrete satisfying assignment
has the reserve strictly under his cap. -/
theorem c7_weekly_quotas :
    (∀ rules : RequiredRules, ∀ employees duty reserves : List String,
      ∀ σ : Sched,
        gen2EmployeeQuotas rules employees duty reserves σ →
          ∀ e < employees.length, ∀ q,
            lookupStr rules.workingDays (employees.getD e "") = some q →
              ∀ w < 4,
                (employees.getD e "" ∈ duty → weekWorkCount σ w e = q)
                ∧ (employees.getD e "" ∉ duty → employees.getD e "" ∈ reserves →
                    weekWorkCount σ w e ≤ q))
    ∧ (∀ σ : Sched, refacWeeklyWork σ → ∀ w < 4,
        refacWeekCount σ w 4 ≤ 2 ∧ ∀ e < 4, refacWeekCount σ w e = 5)
    ∧ gen2EmployeeQuotas c7Rules c7Employees c7Duty c7Reserves c7Sched
    ∧ weekWorkCount c7Sched 0 0 = 5 ∧ weekWorkCount c7Sched 0 1 = 2 := by
  refine ⟨?_, ?_, by decide, by decide, by decide⟩
  · intro rules employees duty reserves σ h e he q hq w hw
    have hmem : q ∈ (lookupStr rules.workingDays (employees.getD e "")).toList := by
      rw [hq]
      exact List.mem_singleton.mpr rfl
    have hall := h e he q hmem w hw
    exact ⟨hall.1, hall.2.1⟩
  · intro σ h w hw
    refine ⟨(h.1 w hw 4 (by omega)).1 rfl, ?_⟩
    intro e he4
    exact (h.1 w hw e (by omega)).2 (by omega)

/-- Claim C8, counterexample: in the Refactor script's built model,
Jennifer — listed in no eligibility list of the empty rule set — is
assigned Early (a working shift, her working indicator true) in a
satisfying assignment: the `if allowed_set:` guard skips employees with
no eligibility entry entirely. -/
theorem c8_no_list_cex :
    refacBuiltModel emptyRules c3Sched
    ∧ c3Sched 1 2 0 = 0 ∧ c3Sched 1 2 0 ≠ 3
    ∧ "Jennifer" ∉ emptyRules.willWorkEarly
    ∧ "Jennifer" ∉ emptyRules.willWorkMiddle
    ∧ "Jennifer" ∉ emptyRules.willWorkLate := by
  exact ⟨by decide, by decide, by decide, by decide, by decide, by decide⟩

/-- Claim C8 (amended): in the `Rota Generator.py` builders the
eligibility rule holds as claimed — an employee absent from every
eligibility list can never have a working shift, and the all-Day-Off and
all-Holiday assignments satisfy the eligibility constraints whatever the
lists; in the Refactor script the exclusion applies only to employees
present in at least one eligibility list (and only while the working
indicator is true), so an employee in no list may be assigned any
working shift there. -/
theorem c8_eligibility :
    (∀ rules : RequiredRules, ∀ employees : List String, ∀ σ : Sched,
      gen1AllowedShifts rules employees σ →
        ∀ e < employees.length,
          employees.getD e "" ∉ rules.willWorkEarly →
          employees.getD e "" ∉ rules.willWorkMiddle →
          employees.getD e "" ∉ rules.willWorkLate →
            ∀ w < 4, ∀ d < 7, ¬ (σ w d e ≤ 2))
    ∧ (∀ rules : RequiredRules, ∀ employees : List String,
        gen1AllowedShifts rules employees (fun _ _ _ => 3))
    ∧ (∀ rules : RequiredRules, ∀ employees : List String,
        gen1AllowedShifts rules employees (fun _ _ _ => 4))
    ∧ (∀ rules : RequiredRules, ∀ σ : Sched,
        refacAllowedShifts rules σ →
          ∀ w < 4, ∀ d < 7, ∀ e < refacEmployees.length, ∀ s < 3,
            (∃ s2 < 3, allowedShift rules (refacEmployees.getD e "") s2) →
            ¬ allowedShift rules (refacEmployees.getD e "") s →
              σ w d e ≠ 3 → σ w d e ≠ s)
    ∧ (∃ σ : Sched, refacBuiltModel emptyRules σ ∧ σ 1 2 0 = 0) := by
  refine ⟨?_, ?_, ?_, ?_, ⟨c3Sched, by decide, by decide⟩⟩
  · intro rules employees σ h e he hE hM hL w hw d hd hle
    have hna : ¬ allowedShift rules (employees.getD e "") (σ w d e) := by
      rintro (⟨-, hm⟩ | ⟨-, hm⟩ | ⟨-, hm⟩)
      exacts [hL hm, hM hm, hE hm]
    exact h w hw d hd e he (σ w d e) (by omega) hna rfl
  · intro rules employees w hw d hd e he s hs hna
    show (3 : Nat) ≠ s
    omega
  · intro rules employees w hw d hd e he s hs hna
    show (4 : Nat) ≠ s
    omega
  · intro rules σ h w hw d hd e he s hs hex hna h3
    exact h w hw d hd e he hex s hs hna h3

/-- Claim C9, counterexample: with one employee holding a Late-shift
preference, the preference tier can total 28 × 2000 = 56000 over the
horizon, which is not below one full-weekend unit 5000 (nor one
single-day unit 2500); the weekend tier itself can total 4 × 5000 = 20000
for one employee, not below one slack unit 10000 — so adjacent-tier
separation fails on the code's weights. -/
theorem c9_tier_separation_cex :
    gen1PrefTerms c9Pref ["Pat"] c9AllLate = 56000
    ∧ weekendBonusFull = 5000 ∧ weekendBonusHalf = 2500
    ∧ ¬ ((56000 : Int) < 5000) ∧ ¬ ((56000 : Int) < 2500)
    ∧ gen1WeekendTerms [] ["Pat"] c9AllOff = 20000
    ∧ slackWeight = 10000 ∧ ¬ ((20000 : Int) < 10000) := by
  refine ⟨by decide, rfl, rfl, by decide, by decide, by decide, rfl, by decide⟩

/-- Claim C9 (amended): the objective uses the fixed weights 5000 / 2500
(weekend bonuses), 2000 (per-day preference) and 10000 (slack), ordered
per single term, but the tier-separation property fails: the maximum
possible preference-tier total for a single employee over the 4-week
horizon, computed from the variable bounds, is 56000 and is attained, not
below one weekend unit; the maximum weekend-tier total 20000 is attained
and not below one slack unit. -/
theorem c9_tier_weights :
    (∀ σ : Sched, gen1PrefTerms c9Pref ["Pat"] σ ≤ 56000)
    ∧ gen1PrefTerms c9Pref ["Pat"] c9AllLate = 56000
    ∧ (∀ σ : Sched, gen1WeekendTerms [] ["Pat"] σ ≤ 20000)
    ∧ gen1WeekendTerms [] ["Pat"] c9AllOff = 20000
    ∧ prefWeight < weekendBonusHalf ∧ weekendBonusHalf < weekendBonusFull
    ∧ weekendBonusFull < slackWeight
    ∧ ¬ (28 * prefWeight < weekendBonusHalf)
    ∧ ¬ (4 * weekendBonusFull < slackWeight) := by
  refine ⟨?_, by decide, ?_, by decide, by decide, by decide, by decide,
    by decide, by decide⟩
  · intro σ
    unfold gen1PrefTerms
    have h1 : ∀ w d : Nat,
        ((List.range (List.length ["Pat"])).map (fun e =>
          gen1PrefCell c9Pref (List.getD ["Pat"] e "") (σ w d e))).sum ≤ 2000 := by
      intro w d
      have hr : ((List.range (List.length (["Pat"] : List String))).map (fun e =>
          gen1PrefCell c9Pref (List.getD ["Pat"] e "") (σ w d e))).sum
          = gen1PrefCell c9Pref "Pat" (σ w d 0) := by
        simp [List.range_succ]
      rw [hr]
      simpa [prefWeight] using gen1PrefCellLe c9Pref "Pat" (σ w d 0)
    have h2 : ∀ w, w < 4 →
        ((List.range 7).map (fun d =>
          ((List.range (List.length ["Pat"])).map (fun e =>
            gen1PrefCell c9Pref (List.getD ["Pat"] e "") (σ w d e))).sum)).sum
          ≤ 14000 := by
      intro w _
      have := listRangeSumLe 7 _ 2000 (fun d _ => h1 w d)
      simpa using this
    have := listRangeSumLe 4 _ 14000 h2
    simpa using this
  · intro σ
    unfold gen1WeekendTerms
    have h1 : ∀ w, w < 4 →
        ((List.range (List.length ["Pat"])).map (fun e =>
          gen1WeekendCell [] (List.getD ["Pat"] e "") (σ w 6 e) (σ w 0 e))).sum
          ≤ 5000 := by
      intro w _
      have hr : ((List.range (List.length (["Pat"] : List String))).map (fun e =>
          gen1WeekendCell [] (List.getD ["Pat"] e "") (σ w 6 e) (σ w 0 e))).sum
          = gen1WeekendCell [] "Pat" (σ w 6 0) (σ w 0 0) := by
        simp [List.range_succ]
      rw [hr]
      simpa [weekendBonusFull] using gen1WeekendCellLe [] "Pat" (σ w 6 0) (σ w 0 0)
    have := listRangeSumLe 4 _ 5000 h1
    simpa using this
